import Mathlib

/-!
Verification of the Nolu stats aggregation engine.

The data model and operations below embed the match schema, the
`calculateUserStats` helper, and the match-mutation route handlers of the
server source file.  JavaScript numbers on these code paths only ever hold
integers and quotients of integers, so they are embedded as `ℚ`;
`toFixed(n)` followed by `parseFloat` on a non-negative value rounds half
away from zero to `n` decimal places, embedded by `round2`/`round1`/`round0`.
-/

namespace Nolu

/-- Outcome enum of the match schema: one of Win, Loss, Draw. -/
inductive Outcome
  | Win
  | Loss
  | Draw
deriving DecidableEq, Repr

/-- MatchType enum of the match schema. -/
inductive MatchType
  | Ranked
  | Casual
  | Tournament
  | Practice
deriving DecidableEq, Repr

/-- One match record, embedding the mongoose match schema (the owner id is
implicit: a record list is always already scoped to one account). -/
structure MatchRecord where
  date : String
  time : String
  matchType : MatchType
  outcome : Outcome
  map : String
  roundsWon : ℕ
  roundsLost : ℕ
  damage : ℕ
  kills : ℕ
  deaths : ℕ
  assists : ℕ
deriving DecidableEq, Repr

/-- The eleven derived statistics fields stored on a user document. -/
structure UserStats where
  kdRatio : ℚ
  damagePerRound : ℚ
  winPercentage : ℚ
  killsPerRound : ℚ
  wins : ℕ
  kills : ℕ
  deaths : ℕ
  assists : ℕ
  totalGames : ℕ
  totalRounds : ℕ
  totalDamage : ℕ
deriving DecidableEq, Repr

/-- Round half away from zero to the nearest integer (the behaviour of
JavaScript toFixed(0) on the non-negative values arising here). -/
def round0 (q : ℚ) : ℚ :=
  (⌊q + 1/2⌋ : ℚ)

/-- Round half away from zero to one decimal place. -/
def round1 (q : ℚ) : ℚ :=
  (⌊q * 10 + 1/2⌋ : ℚ) / 10

/-- Round half away from zero to two decimal places. -/
def round2 (q : ℚ) : ℚ :=
  (⌊q * 100 + 1/2⌋ : ℚ) / 100

/-- The running totals accumulated by the forEach loop of
calculateUserStats. -/
structure Totals where
  totalKills : ℕ
  totalDeaths : ℕ
  totalAssists : ℕ
  totalDamage : ℕ
  totalRounds : ℕ
  wins : ℕ
deriving DecidableEq, Repr

/-- One iteration of the forEach accumulation loop of calculateUserStats. -/
def accumulate (t : Totals) (m : MatchRecord) : Totals :=
  { totalKills := t.totalKills + m.kills
    totalDeaths := t.totalDeaths + m.deaths
    totalAssists := t.totalAssists + m.assists
    totalDamage := t.totalDamage + m.damage
    totalRounds := t.totalRounds + (m.roundsWon + m.roundsLost)
    wins := if m.outcome = Outcome.Win then t.wins + 1 else t.wins }

/-- The all-zero summary returned by calculateUserStats on an empty match
list. -/
def zeroStats : UserStats :=
  { kdRatio := 0
    damagePerRound := 0
    winPercentage := 0
    killsPerRound := 0
    wins := 0
    kills := 0
    deaths := 0
    assists := 0
    totalGames := 0
    totalRounds := 0
    totalDamage := 0 }

/-- The stats aggregation function calculateUserStats, embedded over the
already-fetched list of the account's match records. -/
def calculateUserStats (records : List MatchRecord) : UserStats :=
  if records.length = 0 then
    zeroStats
  else
    let t := records.foldl accumulate ⟨0, 0, 0, 0, 0, 0⟩
    let totalGames := records.length
    let kdRatio : ℚ :=
      if t.totalDeaths > 0 then round2 ((t.totalKills : ℚ) / (t.totalDeaths : ℚ))
      else (t.totalKills : ℚ)
    let damagePerRound : ℚ :=
      if t.totalRounds > 0 then round0 ((t.totalDamage : ℚ) / (t.totalRounds : ℚ))
      else 0
    let winPercentage : ℚ := round1 (((t.wins : ℚ) / (totalGames : ℚ)) * 100)
    let killsPerRound : ℚ :=
      if t.totalRounds > 0 then round2 ((t.totalKills : ℚ) / (t.totalRounds : ℚ))
      else 0
    { kdRatio := kdRatio
      damagePerRound := damagePerRound
      winPercentage := winPercentage
      killsPerRound := killsPerRound
      wins := t.wins
      kills := t.totalKills
      deaths := t.totalDeaths
      assists := t.totalAssists
      totalGames := totalGames
      totalRounds := t.totalRounds
      totalDamage := t.totalDamage }

/-- Sum of kills over a record list. -/
def sumKills (rs : List MatchRecord) : ℕ :=
  (rs.map MatchRecord.kills).sum

/-- Sum of deaths over a record list. -/
def sumDeaths (rs : List MatchRecord) : ℕ :=
  (rs.map MatchRecord.deaths).sum

/-- Sum of assists over a record list. -/
def sumAssists (rs : List MatchRecord) : ℕ :=
  (rs.map MatchRecord.assists).sum

/-- Sum of damage over a record list. -/
def sumDamage (rs : List MatchRecord) : ℕ :=
  (rs.map MatchRecord.damage).sum

/-- Sum of roundsWon + roundsLost over a record list. -/
def sumRounds (rs : List MatchRecord) : ℕ :=
  (rs.map (fun m => m.roundsWon + m.roundsLost)).sum

/-- Number of records whose outcome is Win. -/
def winCount (rs : List MatchRecord) : ℕ :=
  rs.countP (fun m => m.outcome == Outcome.Win)

/-- The forEach loop computes exactly the componentwise sums (stated for an
arbitrary initial accumulator so that induction goes through). -/
lemma foldl_accumulate_eq (t : Totals) (rs : List MatchRecord) :
    rs.foldl accumulate t =
      ⟨t.totalKills + sumKills rs, t.totalDeaths + sumDeaths rs,
       t.totalAssists + sumAssists rs, t.totalDamage + sumDamage rs,
       t.totalRounds + sumRounds rs, t.wins + winCount rs⟩ := by
  induction rs generalizing t with
  | nil =>
      simp [sumKills, sumDeaths, sumAssists, sumDamage, sumRounds, winCount]
  | cons m rs ih =>
      rw [List.foldl_cons, ih]
      simp only [accumulate, sumKills, sumDeaths, sumAssists, sumDamage,
        sumRounds, winCount, List.map_cons, List.sum_cons, List.countP_cons,
        Totals.mk.injEq]
      refine ⟨by omega, by omega, by omega, by omega, by omega, ?_⟩
      by_cases h : m.outcome = Outcome.Win
      · simp [h]
        omega
      · simp [h]

/-- Closed form of calculateUserStats on a non-empty record list: every
field expressed through the componentwise sums. -/
lemma calculateUserStats_eq_of_ne_nil (rs : List MatchRecord) (h : rs.length ≠ 0) :
    calculateUserStats rs =
      { kdRatio :=
          if sumDeaths rs > 0 then round2 ((sumKills rs : ℚ) / (sumDeaths rs : ℚ))
          else (sumKills rs : ℚ)
        damagePerRound :=
          if sumRounds rs > 0 then round0 ((sumDamage rs : ℚ) / (sumRounds rs : ℚ))
          else 0
        winPercentage := round1 (((winCount rs : ℚ) / (rs.length : ℚ)) * 100)
        killsPerRound :=
          if sumRounds rs > 0 then round2 ((sumKills rs : ℚ) / (sumRounds rs : ℚ))
          else 0
        wins := winCount rs
        kills := sumKills rs
        deaths := sumDeaths rs
        assists := sumAssists rs
        totalGames := rs.length
        totalRounds := sumRounds rs
        totalDamage := sumDamage rs } := by
  simp only [calculateUserStats, if_neg h, foldl_accumulate_eq, Nat.zero_add]

/-- calculateUserStats on the empty list is the all-zero summary, by
computation. -/
lemma calculateUserStats_nil : calculateUserStats [] = zeroStats := rfl

/-- The summary literal hand-written by the reset-stats route handler, which
sets each of the eleven user stat fields to zero before saving. -/
def resetStatsLiteral : UserStats :=
  { kdRatio := 0
    damagePerRound := 0
    winPercentage := 0
    killsPerRound := 0
    wins := 0
    kills := 0
    deaths := 0
    assists := 0
    totalGames := 0
    totalRounds := 0
    totalDamage := 0 }

/-- The reset literal coincides with aggregating an empty match set. -/
lemma resetStatsLiteral_eq_calc_nil :
    resetStatsLiteral = calculateUserStats [] := rfl

/-- One account's server-side state: its match records together with the
summary fields persisted on its user document. -/
structure AccountState where
  records : List MatchRecord
  summary : UserStats
deriving DecidableEq, Repr

/-- A fresh account: no matches, and the schema defaults of all stat fields,
which are zero. -/
def initialState : AccountState :=
  { records := [], summary := zeroStats }

/-- The three match-set mutations of the server, as a step relation on
account state.  Adding a match saves it and persists the recomputed stats;
deleting an existing match removes it and persists the recomputed stats;
resetting deletes every match and persists the hand-written zero literal. -/
inductive Step : AccountState → AccountState → Prop
  | addMatch (st : AccountState) (m : MatchRecord) :
      Step st ⟨st.records ++ [m], calculateUserStats (st.records ++ [m])⟩
  | deleteMatch (st : AccountState) (i : ℕ) (hi : i < st.records.length) :
      Step st ⟨st.records.eraseIdx i, calculateUserStats (st.records.eraseIdx i)⟩
  | resetStats (st : AccountState) :
      Step st ⟨[], resetStatsLiteral⟩

/-- States reachable from a fresh account by any sequence of mutations. -/
def Reachable (st : AccountState) : Prop :=
  Relation.ReflTransGen Step initialState st

/-- Injected failure point for a route handler: either no failure, or a
thrown error during the stats recomputation, or during the user-document
update (an error at either await is caught by the same catch block). -/
inductive FailPoint
  | noFail
  | calcFail
  | updateFail
deriving DecidableEq, Repr

/-- The add-match route handler after input validation: the match document
is saved first; then the stats are recomputed and written to the user
document and the handler answers 201.  A failure thrown at the
recomputation or update step reaches the catch block, which answers 500
without having written any summary. -/
def addMatchHandler (st : AccountState) (m : MatchRecord) (fp : FailPoint) :
    AccountState × ℕ :=
  let afterSave : AccountState := ⟨st.records ++ [m], st.summary⟩
  match fp with
  | FailPoint.calcFail => (afterSave, 500)
  | FailPoint.updateFail => (afterSave, 500)
  | FailPoint.noFail =>
      (⟨afterSave.records, calculateUserStats afterSave.records⟩, 201)

/-- The delete-match route handler: if no match with the given index exists
the handler answers 404 and touches nothing; otherwise the match is deleted,
the stats are recomputed and written, and the handler answers 200.  A
failure thrown at the recomputation or update step reaches the catch block,
which answers 500 without having written any summary. -/
def deleteMatchHandler (st : AccountState) (i : ℕ) (fp : FailPoint) :
    AccountState × ℕ :=
  if _hi : i < st.records.length then
    let afterDelete : AccountState := ⟨st.records.eraseIdx i, st.summary⟩
    match fp with
    | FailPoint.calcFail => (afterDelete, 500)
    | FailPoint.updateFail => (afterDelete, 500)
    | FailPoint.noFail =>
        (⟨afterDelete.records, calculateUserStats afterDelete.records⟩, 200)
  else
    (st, 404)

/-- The two records of the worked example in the spec, with arbitrary
concrete values for the fields the aggregation never reads. -/
def exampleRecord1 : MatchRecord :=
  { date := "2024-01-01"
    time := "12:00"
    matchType := MatchType.Ranked
    outcome := Outcome.Win
    map := "Ascent"
    roundsWon := 7
    roundsLost := 6
    damage := 3200
    kills := 15
    deaths := 10
    assists := 5 }

/-- Second record of the worked example. -/
def exampleRecord2 : MatchRecord :=
  { date := "2024-01-02"
    time := "18:30"
    matchType := MatchType.Casual
    outcome := Outcome.Loss
    map := "Bind"
    roundsWon := 5
    roundsLost := 7
    damage := 2400
    kills := 8
    deaths := 12
    assists := 3 }

/-- A concrete account state holding one match with its correct summary. -/
def demoState : AccountState :=
  { records := [exampleRecord1], summary := calculateUserStats [exampleRecord1] }

/-- A record with zero deaths and five kills, from the spec example for the
zero-deaths branch of kdRatio. -/
def zeroDeathRecord : MatchRecord :=
  { date := "2024-02-03"
    time := "09:15"
    matchType := MatchType.Practice
    outcome := Outcome.Draw
    map := "Haven"
    roundsWon := 4
    roundsLost := 4
    damage := 900
    kills := 5
    deaths := 0
    assists := 2 }

/-- Permutation of the record list leaves every componentwise sum, the win
count and the length unchanged. -/
lemma sums_of_perm {rs rs2 : List MatchRecord} (h : rs.Perm rs2) :
    sumKills rs = sumKills rs2 ∧ sumDeaths rs = sumDeaths rs2 ∧
    sumAssists rs = sumAssists rs2 ∧ sumDamage rs = sumDamage rs2 ∧
    sumRounds rs = sumRounds rs2 ∧ winCount rs = winCount rs2 ∧
    rs.length = rs2.length :=
  ⟨(h.map MatchRecord.kills).sum_eq, (h.map MatchRecord.deaths).sum_eq,
   (h.map MatchRecord.assists).sum_eq, (h.map MatchRecord.damage).sum_eq,
   (h.map (fun m : MatchRecord => m.roundsWon + m.roundsLost)).sum_eq,
   h.countP_eq _, h.length_eq⟩

/-- Claim C1: every account state reachable from a fresh account by
add-match, delete-match and reset-stats steps has its persisted summary
equal to the aggregation of its complete current match set. -/
theorem claim_C1_summary_invariant (st : AccountState) (h : Reachable st) :
    st.summary = calculateUserStats st.records := by
  induction h with
  | refl => rfl
  | tail _hab hstep _ih =>
      cases hstep with
      | addMatch => rfl
      | deleteMatch => rfl
      | resetStats => exact resetStatsLiteral_eq_calc_nil

/-- Witness for C1: the state reached from a fresh account by one add-match
step satisfies the invariant. -/
theorem claim_C1_witness :
    (AccountState.mk (initialState.records ++ [exampleRecord1])
        (calculateUserStats (initialState.records ++ [exampleRecord1]))).summary =
      calculateUserStats
        (AccountState.mk (initialState.records ++ [exampleRecord1])
          (calculateUserStats (initialState.records ++ [exampleRecord1]))).records :=
  claim_C1_summary_invariant _
    (Relation.ReflTransGen.single (Step.addMatch initialState exampleRecord1))

/-- Claim C2: kdRatio is round2(totalKills/totalDeaths) when totalDeaths is
positive and the raw unrounded kill total when totalDeaths is zero; in
particular zero total deaths gives kdRatio equal to the kill total
exactly. -/
theorem claim_C2_kdRatio (rs : List MatchRecord) :
    (calculateUserStats rs).kdRatio =
      (if sumDeaths rs > 0 then round2 ((sumKills rs : ℚ) / (sumDeaths rs : ℚ))
       else (sumKills rs : ℚ)) ∧
    (sumDeaths rs = 0 → (calculateUserStats rs).kdRatio = (sumKills rs : ℚ)) := by
  have main : (calculateUserStats rs).kdRatio =
      (if sumDeaths rs > 0 then round2 ((sumKills rs : ℚ) / (sumDeaths rs : ℚ))
       else (sumKills rs : ℚ)) := by
    by_cases h : rs.length = 0
    · have hnil : rs = [] := List.length_eq_zero.mp h
      subst hnil
      simp [calculateUserStats_nil, zeroStats, sumKills, sumDeaths]
    · rw [calculateUserStats_eq_of_ne_nil rs h]
  refine ⟨main, fun h0 => ?_⟩
  rw [main, if_neg (by omega)]

/-- Witness for C2: one record with five kills and zero deaths has kdRatio
equal to the kill total. -/
theorem claim_C2_witness :
    sumDeaths [zeroDeathRecord] = 0 ∧
    (calculateUserStats [zeroDeathRecord]).kdRatio = (sumKills [zeroDeathRecord] : ℚ) :=
  ⟨rfl, (claim_C2_kdRatio [zeroDeathRecord]).2 rfl⟩

/-- Claim C3: aggregating the empty record set yields zero in every one of
the eleven summary fields, the ratio fields included. -/
theorem claim_C3_empty_all_zero :
    (calculateUserStats []).kdRatio = 0 ∧
    (calculateUserStats []).damagePerRound = 0 ∧
    (calculateUserStats []).winPercentage = 0 ∧
    (calculateUserStats []).killsPerRound = 0 ∧
    (calculateUserStats []).wins = 0 ∧
    (calculateUserStats []).kills = 0 ∧
    (calculateUserStats []).deaths = 0 ∧
    (calculateUserStats []).assists = 0 ∧
    (calculateUserStats []).totalGames = 0 ∧
    (calculateUserStats []).totalRounds = 0 ∧
    (calculateUserStats []).totalDamage = 0 :=
  ⟨rfl, rfl, rfl, rfl, rfl, rfl, rfl, rfl, rfl, rfl, rfl⟩

/-- Claim C4: the integer accumulators of the summary are exactly the
componentwise sums, the win count and the record count, and wins never
exceeds totalGames. -/
theorem claim_C4_totals (rs : List MatchRecord) :
    (calculateUserStats rs).kills = sumKills rs ∧
    (calculateUserStats rs).deaths = sumDeaths rs ∧
    (calculateUserStats rs).assists = sumAssists rs ∧
    (calculateUserStats rs).totalDamage = sumDamage rs ∧
    (calculateUserStats rs).totalRounds = sumRounds rs ∧
    (calculateUserStats rs).wins = winCount rs ∧
    (calculateUserStats rs).totalGames = rs.length ∧
    (calculateUserStats rs).wins ≤ (calculateUserStats rs).totalGames := by
  by_cases h : rs.length = 0
  · have hnil : rs = [] := List.length_eq_zero.mp h
    subst hnil
    simp [calculateUserStats_nil, zeroStats, sumKills, sumDeaths, sumAssists,
      sumDamage, sumRounds, winCount]
  · rw [calculateUserStats_eq_of_ne_nil rs h]
    refine ⟨rfl, rfl, rfl, rfl, rfl, rfl, rfl, ?_⟩
    exact List.countP_le_length _

/-- Claim C5: damagePerRound is round0(totalDamage/totalRounds) and
killsPerRound is round2(totalKills/totalRounds) whenever totalRounds is
positive, and both are 0 otherwise. -/
theorem claim_C5_per_round (rs : List MatchRecord) :
    (calculateUserStats rs).damagePerRound =
      (if sumRounds rs > 0 then round0 ((sumDamage rs : ℚ) / (sumRounds rs : ℚ))
       else 0) ∧
    (calculateUserStats rs).killsPerRound =
      (if sumRounds rs > 0 then round2 ((sumKills rs : ℚ) / (sumRounds rs : ℚ))
       else 0) := by
  by_cases h : rs.length = 0
  · have hnil : rs = [] := List.length_eq_zero.mp h
    subst hnil
    simp [calculateUserStats_nil, zeroStats, sumRounds, sumDamage, sumKills]
  · rw [calculateUserStats_eq_of_ne_nil rs h]
    exact ⟨rfl, rfl⟩

/-- Claim C6: on a non-empty record set the summary's totalGames is
positive, the divisor of the win-percentage division is nonzero, and
winPercentage equals round1((wins/totalGames)*100) with no zero-guard. -/
theorem claim_C6_winPercentage (rs : List MatchRecord) (h : rs ≠ []) :
    0 < (calculateUserStats rs).totalGames ∧
    ((rs.length : ℚ) ≠ 0) ∧
    (calculateUserStats rs).winPercentage =
      round1 (((winCount rs : ℚ) / (rs.length : ℚ)) * 100) := by
  have hlen : rs.length ≠ 0 := fun h0 => h (List.length_eq_zero.mp h0)
  rw [calculateUserStats_eq_of_ne_nil rs hlen]
  exact ⟨Nat.pos_of_ne_zero hlen, Nat.cast_ne_zero.mpr hlen, rfl⟩

/-- Witness for C6: the singleton list of the first example record. -/
theorem claim_C6_witness :
    0 < (calculateUserStats [exampleRecord1]).totalGames ∧
    (([exampleRecord1] : List MatchRecord).length : ℚ) ≠ 0 ∧
    (calculateUserStats [exampleRecord1]).winPercentage =
      round1 (((winCount [exampleRecord1] : ℚ) /
        (([exampleRecord1] : List MatchRecord).length : ℚ)) * 100) :=
  claim_C6_winPercentage [exampleRecord1] (List.cons_ne_nil _ _)

/-- Claim C7: aggregation is order independent — permuted record lists
yield the same summary. -/
theorem claim_C7_perm_invariant (rs rs2 : List MatchRecord) (h : rs.Perm rs2) :
    calculateUserStats rs = calculateUserStats rs2 := by
  obtain ⟨hk, hd, ha, hdm, hr, hw, hl⟩ := sums_of_perm h
  by_cases h0 : rs.length = 0
  · have hnil : rs = [] := List.length_eq_zero.mp h0
    have hnil2 : rs2 = [] := List.length_eq_zero.mp (by omega)
    subst hnil
    subst hnil2
    rfl
  · rw [calculateUserStats_eq_of_ne_nil rs h0,
      calculateUserStats_eq_of_ne_nil rs2 (by omega)]
    rw [hk, hd, ha, hdm, hr, hw, hl]

/-- Witness for C7: swapping the two example records leaves the summary
unchanged. -/
theorem claim_C7_witness :
    calculateUserStats [exampleRecord2, exampleRecord1] =
      calculateUserStats [exampleRecord1, exampleRecord2] :=
  claim_C7_perm_invariant _ _ (List.Perm.swap exampleRecord1 exampleRecord2 [])

/-- Claim C8: the worked two-record example of the spec, for any values of
the fields the aggregation does not read. -/
theorem claim_C8_worked_example (d1 t1 mp1 d2 t2 mp2 : String)
    (mt1 mt2 : MatchType) :
    (calculateUserStats
        [⟨d1, t1, mt1, Outcome.Win, mp1, 7, 6, 3200, 15, 10, 5⟩,
         ⟨d2, t2, mt2, Outcome.Loss, mp2, 5, 7, 2400, 8, 12, 3⟩]).totalGames = 2 ∧
    (calculateUserStats
        [⟨d1, t1, mt1, Outcome.Win, mp1, 7, 6, 3200, 15, 10, 5⟩,
         ⟨d2, t2, mt2, Outcome.Loss, mp2, 5, 7, 2400, 8, 12, 3⟩]).wins = 1 ∧
    (calculateUserStats
        [⟨d1, t1, mt1, Outcome.Win, mp1, 7, 6, 3200, 15, 10, 5⟩,
         ⟨d2, t2, mt2, Outcome.Loss, mp2, 5, 7, 2400, 8, 12, 3⟩]).totalRounds = 25 ∧
    (calculateUserStats
        [⟨d1, t1, mt1, Outcome.Win, mp1, 7, 6, 3200, 15, 10, 5⟩,
         ⟨d2, t2, mt2, Outcome.Loss, mp2, 5, 7, 2400, 8, 12, 3⟩]).kdRatio = 1.05 ∧
    (calculateUserStats
        [⟨d1, t1, mt1, Outcome.Win, mp1, 7, 6, 3200, 15, 10, 5⟩,
         ⟨d2, t2, mt2, Outcome.Loss, mp2, 5, 7, 2400, 8, 12, 3⟩]).damagePerRound = 224 ∧
    (calculateUserStats
        [⟨d1, t1, mt1, Outcome.Win, mp1, 7, 6, 3200, 15, 10, 5⟩,
         ⟨d2, t2, mt2, Outcome.Loss, mp2, 5, 7, 2400, 8, 12, 3⟩]).winPercentage = 50 ∧
    (calculateUserStats
        [⟨d1, t1, mt1, Outcome.Win, mp1, 7, 6, 3200, 15, 10, 5⟩,
         ⟨d2, t2, mt2, Outcome.Loss, mp2, 5, 7, 2400, 8, 12, 3⟩]).killsPerRound = 0.92 := by
  have hk : sumKills
      [⟨d1, t1, mt1, Outcome.Win, mp1, 7, 6, 3200, 15, 10, 5⟩,
       ⟨d2, t2, mt2, Outcome.Loss, mp2, 5, 7, 2400, 8, 12, 3⟩] = 23 := rfl
  have hd : sumDeaths
      [⟨d1, t1, mt1, Outcome.Win, mp1, 7, 6, 3200, 15, 10, 5⟩,
       ⟨d2, t2, mt2, Outcome.Loss, mp2, 5, 7, 2400, 8, 12, 3⟩] = 22 := rfl
  have hdm : sumDamage
      [⟨d1, t1, mt1, Outcome.Win, mp1, 7, 6, 3200, 15, 10, 5⟩,
       ⟨d2, t2, mt2, Outcome.Loss, mp2, 5, 7, 2400, 8, 12, 3⟩] = 5600 := rfl
  have hr : sumRounds
      [⟨d1, t1, mt1, Outcome.Win, mp1, 7, 6, 3200, 15, 10, 5⟩,
       ⟨d2, t2, mt2, Outcome.Loss, mp2, 5, 7, 2400, 8, 12, 3⟩] = 25 := rfl
  have hw : winCount
      [⟨d1, t1, mt1, Outcome.Win, mp1, 7, 6, 3200, 15, 10, 5⟩,
       ⟨d2, t2, mt2, Outcome.Loss, mp2, 5, 7, 2400, 8, 12, 3⟩] = 1 := rfl
  have hl : ([⟨d1, t1, mt1, Outcome.Win, mp1, 7, 6, 3200, 15, 10, 5⟩,
       ⟨d2, t2, mt2, Outcome.Loss, mp2, 5, 7, 2400, 8, 12, 3⟩] :
         List MatchRecord).length = 2 := rfl
  rw [calculateUserStats_eq_of_ne_nil _ (by simp), hk, hd, hdm, hr, hw, hl]
  norm_num [round0, round1, round2]

/-- Claim C9: with a failure injected at the stats recomputation or the
user-document update, the add-match and delete-match handlers answer 500
and leave the previously persisted summary unchanged. -/
theorem claim_C9_failure_leaves_summary (st : AccountState) (m : MatchRecord)
    (i : ℕ) (fp : FailPoint) (h : fp ≠ FailPoint.noFail) :
    ((addMatchHandler st m fp).1.summary = st.summary ∧
      (addMatchHandler st m fp).2 = 500) ∧
    ((deleteMatchHandler st i fp).1.summary = st.summary ∧
      (i < st.records.length → (deleteMatchHandler st i fp).2 = 500)) := by
  cases fp with
  | noFail => exact absurd rfl h
  | calcFail =>
      refine ⟨⟨rfl, rfl⟩, ?_⟩
      by_cases hi : i < st.records.length <;>
        simp [deleteMatchHandler, hi]
  | updateFail =>
      refine ⟨⟨rfl, rfl⟩, ?_⟩
      by_cases hi : i < st.records.length <;>
        simp [deleteMatchHandler, hi]

/-- Witness for C9: a calculation failure on a one-match account leaves its
summary unchanged and answers 500 on both handlers. -/
theorem claim_C9_witness :
    (addMatchHandler demoState exampleRecord2 FailPoint.calcFail).1.summary
        = demoState.summary ∧
    (addMatchHandler demoState exampleRecord2 FailPoint.calcFail).2 = 500 ∧
    (deleteMatchHandler demoState 0 FailPoint.calcFail).1.summary
        = demoState.summary ∧
    (deleteMatchHandler demoState 0 FailPoint.calcFail).2 = 500 := by
  have h := claim_C9_failure_leaves_summary demoState exampleRecord2 0
    FailPoint.calcFail (by decide)
  exact ⟨h.1.1, h.1.2, h.2.1, h.2.2 (by decide)⟩

/-- Claim C10: the hand-written zero literal of the reset-stats handler is
exactly the summary the aggregation returns on the empty match set. -/
theorem claim_C10_reset_refinement :
    resetStatsLiteral = calculateUserStats [] := rfl

end Nolu
